import Mathlib

/-!
Verification development for the KC868-A16 schedule and trigger evaluation
engine.  The definitions below are a shallow embedding of the C++ sources:

* `ScheduleManager.h` / `ScheduleManager.cpp` — rule data model, the
  time-based pass (`checkSchedules`), the full-scan input/sensor pass
  (`checkInputBasedSchedules`), analog triggers (`checkAnalogTriggers`)
  and action dispatch (`executeScheduleAction`).
* `InterruptManager.h` / `InterruptManager.cpp` — interrupt configuration,
  edge/level classification and the priority-ordered dispatch
  (`processInputInterrupts`).
* `HardwareManager.cpp` — the staged output vector (`setOutputState`,
  `getOutputState`) and the physical commit (`writeOutputs`).

C++ machine integers are modelled as `Nat` (all fields of the embedded
structures are unsigned in the source); the one place where C++ width
matters — the implicit `uint16_t -> uint8_t` truncation of a target id —
is modelled explicitly with `% 256`.  C++ `float` sensor readings and
thresholds are modelled as `ℚ`; every literal the source compares against
(`0.5f`, `2.0f`, `50`) is exactly representable, so the order relations
agree with the float ones on exactly representable data.
-/

namespace KC868

/-- `TimeSchedule` from `ScheduleManager.h` (fields in declaration order).
`triggerType`: 0=Time, 1=Input, 2=Combined, 3=Sensor.  `days` is the 7-bit
weekday set (bit 0 = Sunday).  `inputMask`/`inputStates` are `uint16_t` in
the source.  `logic`: 0=AND, 1=OR.  `action`: 0=OFF, 1=ON, 2=TOGGLE.
`targetType`: 0=single output, 1=bitmask. -/
structure TimeSchedule where
  enabled : Bool
  triggerType : Nat
  days : Nat
  hour : Nat
  minute : Nat
  inputMask : Nat
  inputStates : Nat
  logic : Nat
  action : Nat
  targetType : Nat
  targetId : Nat
  targetIdLow : Nat
  name : String
  sensorIndex : Nat
  sensorTriggerType : Nat
  sensorCondition : Nat
  sensorThreshold : ℚ
deriving Repr, DecidableEq

/-- `AnalogTrigger` from `ScheduleManager.h`. -/
structure AnalogTrigger where
  enabled : Bool
  analogInput : Nat
  threshold : Nat
  condition : Nat
  action : Nat
  targetType : Nat
  targetId : Nat
  name : String
deriving Repr, DecidableEq

/-- `InterruptConfig` from `InterruptManager.h`.
`priority`: 1=HIGH, 2=MEDIUM, 3=LOW, 0=NONE.
`triggerType`: 0=rising, 1=falling, 2=change, 3=high level, 4=low level. -/
structure InterruptConfig where
  enabled : Bool
  priority : Nat
  inputIndex : Nat
  triggerType : Nat
  name : String
deriving Repr, DecidableEq

def INPUT_PRIORITY_HIGH : Nat := 1
def INPUT_PRIORITY_MEDIUM : Nat := 2
def INPUT_PRIORITY_LOW : Nat := 3
def INPUT_PRIORITY_NONE : Nat := 0

/-- The wall-clock fields of RTClib `DateTime` that the engine reads
(`dayOfTheWeek()` is 0=Sunday .. 6=Saturday). -/
structure RTime where
  dayOfWeek : Nat
  hour : Nat
  minute : Nat
  second : Nat
deriving Repr, DecidableEq

/-- The ephemeral system snapshot an evaluation pass reads through the
collaborator interfaces: `HardwareManager::getInputState` (16 lines),
`HardwareManager::getDirectInputState` (3 lines),
`SensorManager::getCurrentTime`, `SensorManager::getSensorType`,
`SensorManager::getTemperature`, `SensorManager::getHumidity`. -/
structure Snapshot where
  inputState : Nat → Bool
  directInputState : Nat → Bool
  now : RTime
  sensorType : Nat → Nat
  temperature : Nat → ℚ
  humidity : Nat → ℚ

/-- `ScheduleManager::calculateInputStateMask`: digital inputs become bits
0-15, direct inputs HT1-HT3 become bits 16-18. -/
def calculateInputStateMask (snap : Snapshot) : Nat :=
  let digital := (List.range 16).foldl
    (fun acc i => if snap.inputState i then acc ||| (1 <<< i) else acc) 0
  (List.range 3).foldl
    (fun acc i => if snap.directInputState i then acc ||| (1 <<< (16 + i)) else acc) digital

/-- AND-logic loop of `checkInputBasedSchedules` (lines 442-467): walk the
bit positions; on a masked bit whose current state differs from the desired
state, stop with `conditionMet = false` (the accumulators keep only the
bits seen so far); otherwise accumulate the bit into the high or low
accumulator according to the current state. -/
def andLoop (mask states cur : Nat) :
    List Nat → Nat → Nat → Bool × Nat × Nat
  | [], high, low => (true, high, low)
  | b :: rest, high, low =>
    if mask.testBit b then
      if cur.testBit b ≠ states.testBit b then (false, high, low)
      else if cur.testBit b then andLoop mask states cur rest (high ||| (1 <<< b)) low
      else andLoop mask states cur rest high (low ||| (1 <<< b))
    else andLoop mask states cur rest high low

/-- OR-logic loop of `checkInputBasedSchedules` (lines 469-495): every
masked bit is visited (no early exit); each masked bit is accumulated into
the high or low accumulator by its current state, and the condition becomes
true as soon as one masked bit matches its desired state. -/
def orLoop (mask states cur : Nat) :
    List Nat → Bool → Nat → Nat → Bool × Nat × Nat
  | [], met, high, low => (met, high, low)
  | b :: rest, met, high, low =>
    if mask.testBit b then
      let high' := if cur.testBit b then high ||| (1 <<< b) else high
      let low' := if cur.testBit b then low else low ||| (1 <<< b)
      orLoop mask states cur rest (met || (cur.testBit b == states.testBit b)) high' low'
    else orLoop mask states cur rest met high low

/-- The masked-input condition evaluation of the full scan: AND loop for
`logic = 0`, OR loop otherwise, over bit positions 0..18. -/
def evalInputCondition (sched : TimeSchedule) (cur : Nat) : Bool × Nat × Nat :=
  if sched.logic = 0 then
    andLoop sched.inputMask sched.inputStates cur (List.range 19) 0 0
  else
    orLoop sched.inputMask sched.inputStates cur (List.range 19) false 0 0

/-- Sensor threshold comparison of the full scan (lines 382-428).  The
temperature branch runs for `sensorTriggerType = 0`; the humidity branch
runs only for `sensorTriggerType = 1` with a DHT-class sensor
(`getSensorType ∈ {1, 2}`); all other combinations leave the condition
false (the C++ `switch` has no default). -/
def sensorConditionMet (sched : TimeSchedule) (snap : Snapshot) : Bool :=
  if sched.sensorTriggerType = 0 then
    let v := snap.temperature sched.sensorIndex
    if sched.sensorCondition = 0 then decide (v > sched.sensorThreshold)
    else if sched.sensorCondition = 1 then decide (v < sched.sensorThreshold)
    else if sched.sensorCondition = 2 then decide (|v - sched.sensorThreshold| < (1 : ℚ) / 2)
    else false
  else if sched.sensorTriggerType = 1 ∧
      (snap.sensorType sched.sensorIndex = 1 ∨ snap.sensorType sched.sensorIndex = 2) then
    let v := snap.humidity sched.sensorIndex
    if sched.sensorCondition = 0 then decide (v > sched.sensorThreshold)
    else if sched.sensorCondition = 1 then decide (v < sched.sensorThreshold)
    else if sched.sensorCondition = 2 then decide (|v - sched.sensorThreshold| < 2)
    else false
  else false

/-- Combined-type day/hour/minute gate used by the full scan
(lines 355-375): weekday bit (the C++ `uint8_t currentDayBit` truncates
`1 << dayOfWeek` to 8 bits), then exact hour and minute — no 5-second
window on this path. -/
def combinedTimeGate (sched : TimeSchedule) (t : RTime) : Bool :=
  if sched.days &&& ((1 <<< t.dayOfWeek) % 256) = 0 then false
  else decide (t.hour = sched.hour) && decide (t.minute = sched.minute)

/-- Dual-target dispatch of the full scan (lines 498-511): on an overall
match, fire `targetId` when the high accumulator is nonzero and
`targetId > 0`, and fire `targetIdLow` when the low accumulator is nonzero
and `targetIdLow > 0` (both may fire). -/
def dualDispatch (sched : TimeSchedule) (high low : Nat) : List Nat :=
  (if high ≠ 0 ∧ sched.targetId > 0 then [sched.targetId] else []) ++
    (if low ≠ 0 ∧ sched.targetIdLow > 0 then [sched.targetIdLow] else [])

/-- One schedule's contribution to the full scan
`ScheduleManager::checkInputBasedSchedules()` (lines 338-513): the list of
target ids passed to `executeScheduleAction` for this schedule, in order.
`cur` is the 19-bit input snapshot computed once per scan. -/
def schedulePassTargets (snap : Snapshot) (cur : Nat) (sched : TimeSchedule) : List Nat :=
  if ¬sched.enabled then []
  else if ¬(sched.triggerType = 1 ∨ sched.triggerType = 2 ∨ sched.triggerType = 3) then []
  else if (sched.triggerType = 1 ∨ sched.triggerType = 2) ∧ sched.inputMask = 0 then []
  else if sched.triggerType = 2 ∧ ¬combinedTimeGate sched snap.now then []
  else if sched.triggerType = 3 then
    if 3 ≤ sched.sensorIndex then []
    else if snap.sensorType sched.sensorIndex = 0 then []
    else
      -- `conditionMet = sensorConditionMet`; on true the accumulators are
      -- (high, low) = (1, 0), on false (0, 1) — but the dispatch block is
      -- guarded by `conditionMet && timeConditionMet` (line 499), so a
      -- false sensor condition dispatches nothing.
      if sensorConditionMet sched snap then dualDispatch sched 1 0 else []
  else
    let r := evalInputCondition sched cur
    if r.1 then dualDispatch sched r.2.1 r.2.2 else []

/-- The full scan over all 30 slots: pairs `(scheduleIndex, targetId)` of
`executeScheduleAction(i, targetId)` calls, in execution order. -/
def fullScanDispatches (schedules : List TimeSchedule) (snap : Snapshot) :
    List (Nat × Nat) :=
  let cur := calculateInputStateMask snap
  schedules.enum.flatMap fun p => (schedulePassTargets snap cur p.2).map (fun t => (p.1, t))

/-- The per-schedule firing test of the time-based pass
`ScheduleManager::checkSchedules` (lines 289-299): enabled, trigger type
Time (0) or Combined (2), weekday bit set, exact hour and minute, and
`second < 5`. -/
def timePassFires (sched : TimeSchedule) (t : RTime) : Bool :=
  sched.enabled &&
    (decide (sched.triggerType = 0) || decide (sched.triggerType = 2)) &&
    decide (sched.days &&& ((1 <<< t.dayOfWeek) % 256) ≠ 0) &&
    decide (t.hour = sched.hour) && decide (t.minute = sched.minute) &&
    decide (t.second < 5)

/-- `ScheduleManager::checkSchedules` (lines 270-315) as the list of
`(scheduleIndex, targetId)` dispatches of one pass: a matching Time
schedule dispatches its own `targetId` directly; a matching Combined
schedule invokes the full scan `checkInputBasedSchedules()`. -/
def checkSchedulesDispatches (schedules : List TimeSchedule) (snap : Snapshot) :
    List (Nat × Nat) :=
  schedules.enum.flatMap fun p =>
    if timePassFires p.2 snap.now then
      if p.2.triggerType = 0 then [(p.1, p.2.targetId)]
      else fullScanDispatches schedules snap
    else []

/-! ### Output layer (`HardwareManager.cpp`) -/

/-- The in-memory staged output vector `_outputStates[16]`, modelled as a
function from relay index to state. -/
def Outputs : Type := Nat → Bool

/-- `HardwareManager::getOutputState`: out-of-range reads return false. -/
def getOutputState (outputs : Outputs) (index : Nat) : Bool :=
  if index < 16 then outputs index else false

/-- `HardwareManager::setOutputState`: stages the bit in the in-memory
vector only; out-of-range writes are ignored. -/
def setOutputState (outputs : Outputs) (index : Nat) (state : Bool) : Outputs :=
  if index < 16 then (fun j => if j = index then state else outputs j) else outputs

/-- `HardwareManager::writeOutputs` (lines 201-243): one `digitalWrite`
per relay pin (outputs 0-7 on expander IC4, outputs 8-15 on IC3), each in
its own try/catch.  `fails b = true` models the pin-`b` write throwing: the
pin keeps its previous physical level, the loop continues with the next
pin, and the call returns false.  The active-LOW encoding of the physical
level is a fixed bijection and is elided. -/
def writeOutputs (staged : Outputs) (phys : Outputs) (fails : Nat → Bool) :
    Outputs × Bool :=
  ((fun b => if b < 16 then (if fails b then phys b else staged b) else phys b),
    (List.range 16).all (fun b => !fails b))

/-- Events of one `executeScheduleAction` run: staging writes into the
in-memory vector, then the single `writeOutputs` commit. -/
inductive ExecEvent where
  | stage (relay : Nat) (value : Bool)
  | commit
deriving Repr, DecidableEq

/-- Single-target branch of `ScheduleManager::executeScheduleAction`
(lines 701-720).  `uint8_t relay = targetId` truncates the 16-bit target to
8 bits before the `relay < 16` bounds check. -/
def stageSingle (sched : TimeSchedule) (targetId : Nat) (outputs : Outputs) :
    Outputs × List ExecEvent :=
  if targetId % 256 < 16 then
    if sched.action = 0 then
      (setOutputState outputs (targetId % 256) false,
        [ExecEvent.stage (targetId % 256) false])
    else if sched.action = 1 then
      (setOutputState outputs (targetId % 256) true,
        [ExecEvent.stage (targetId % 256) true])
    else if sched.action = 2 then
      (setOutputState outputs (targetId % 256) (!getOutputState outputs (targetId % 256)),
        [ExecEvent.stage (targetId % 256) (!getOutputState outputs (targetId % 256))])
    else (outputs, [])
  else (outputs, [])

/-- One iteration of the bitmask loop of `executeScheduleAction`
(lines 725-742): stage relay `j` per the action when its bit is set. -/
def stageBitmaskStep (action : Nat) (targetId : Nat)
    (acc : Outputs × List ExecEvent) (j : Nat) : Outputs × List ExecEvent :=
  if targetId.testBit j then
    if action = 0 then
      (setOutputState acc.1 j false, acc.2 ++ [ExecEvent.stage j false])
    else if action = 1 then
      (setOutputState acc.1 j true, acc.2 ++ [ExecEvent.stage j true])
    else if action = 2 then
      (setOutputState acc.1 j (!getOutputState acc.1 j),
        acc.2 ++ [ExecEvent.stage j (!getOutputState acc.1 j)])
    else acc
  else acc

/-- Bitmask branch of `ScheduleManager::executeScheduleAction`
(lines 721-743): every relay whose bit is set in `targetId` is staged in
index order. -/
def stageBitmask (sched : TimeSchedule) (targetId : Nat) (outputs : Outputs) :
    Outputs × List ExecEvent :=
  (List.range 16).foldl (stageBitmaskStep sched.action targetId) (outputs, [])

/-- The staging phase of `executeScheduleAction` for a schedule that passed
the index/enabled guard: all mutations go to the in-memory vector. -/
def stageAction (sched : TimeSchedule) (targetId : Nat) (outputs : Outputs) :
    Outputs × List ExecEvent :=
  if sched.targetType = 0 then stageSingle sched targetId outputs
  else if sched.targetType = 1 then stageBitmask sched targetId outputs
  else (outputs, [])

/-- `ScheduleManager::executeScheduleAction(int, uint16_t)` (lines
692-749): after the guard, stage all mutations in the in-memory vector,
then perform the single `writeOutputs` commit.  Returns the new staged
vector, the new physical vector, the commit result, and the event trace. -/
def executeScheduleAction (schedules : List TimeSchedule) (i : Nat) (targetId : Nat)
    (outputs : Outputs) (phys : Outputs) (fails : Nat → Bool) :
    Outputs × Outputs × Bool × List ExecEvent :=
  match schedules[i]? with
  | none => (outputs, phys, true, [])
  | some sched =>
    if ¬sched.enabled then (outputs, phys, true, [])
    else
      let staged := stageAction sched targetId outputs
      let committed := writeOutputs staged.1 phys fails
      (staged.1, committed.1, committed.2, staged.2 ++ [ExecEvent.commit])

/-! ### Analog triggers (`ScheduleManager::checkAnalogTriggers`, lines 617-679) -/

/-- Calls out of the schedule-manager evaluation passes that matter for the
analog-pass claims: invoking the full scan `checkInputBasedSchedules()` and
committing the outputs. -/
inductive SMCall where
  | fullScan
  | writeOutputsCall
deriving Repr, DecidableEq

/-- Threshold comparison of an analog trigger (lines 627-635); `value` is
the signed `int` ADC reading. -/
def analogCondMet (trig : AnalogTrigger) (value : Int) : Bool :=
  if trig.condition = 0 then decide (value > (trig.threshold : Int))
  else if trig.condition = 1 then decide (value < (trig.threshold : Int))
  else if trig.condition = 2 then decide (|value - (trig.threshold : Int)| < 50)
  else false

/-- Relay staging performed directly by a fired analog trigger (lines
641-671); single-target ids go through the same `uint8_t` truncation. -/
def analogStage (trig : AnalogTrigger) (outputs : Outputs) : Outputs :=
  if trig.targetType = 0 then
    let relay := trig.targetId % 256
    if relay < 16 then
      if trig.action = 0 then setOutputState outputs relay false
      else if trig.action = 1 then setOutputState outputs relay true
      else if trig.action = 2 then
        setOutputState outputs relay (!getOutputState outputs relay)
      else outputs
    else outputs
  else if trig.targetType = 1 then
    (List.range 16).foldl
      (fun acc j =>
        if trig.targetId.testBit j then
          if trig.action = 0 then setOutputState acc j false
          else if trig.action = 1 then setOutputState acc j true
          else if trig.action = 2 then setOutputState acc j (!getOutputState acc j)
          else acc
        else acc)
      outputs
  else outputs

/-- One iteration of the `checkAnalogTriggers` loop (lines 618-677): an
enabled trigger with a valid analog input whose condition is met applies
its own action to the staged vector and calls `writeOutputs`. -/
def analogStep (analog : Nat → Int) (acc : Outputs × List SMCall)
    (trig : AnalogTrigger) : Outputs × List SMCall :=
  if trig.enabled then
    if trig.analogInput < 4 then
      if analogCondMet trig (analog trig.analogInput) then
        (analogStage trig acc.1, acc.2 ++ [SMCall.writeOutputsCall])
      else acc
    else acc
  else acc

/-- `ScheduleManager::checkAnalogTriggers`: every enabled trigger with a
valid analog input whose condition is met applies its own action to the
staged vector and calls `writeOutputs`; no other schedule-manager entry
point is invoked from this pass.  Returns the staged vector and the trace
of `SMCall`s. -/
def checkAnalogTriggers (triggers : List AnalogTrigger) (analog : Nat → Int)
    (outputs : Outputs) : Outputs × List SMCall :=
  triggers.foldl (analogStep analog) (outputs, [])

/-! ### Interrupt-priority dispatch (`InterruptManager.cpp`, lines 180-276) -/

/-- Edge/level classification of `processInputInterrupts` (lines 200-225):
whether a sampled input should be flagged given its configured trigger type
and the previous and current levels.  The C++ `switch` has no default, so
an out-of-range trigger type never flags. -/
def shouldProcess (cfg : InterruptConfig) (prev cur : Bool) : Bool :=
  if cfg.triggerType = 0 then !prev && cur
  else if cfg.triggerType = 1 then prev && !cur
  else if cfg.triggerType = 2 then prev != cur
  else if cfg.triggerType = 3 then cur
  else if cfg.triggerType = 4 then !cur
  else false

/-- The sticky change flag of input `i` after the sampling phase of one
`processInputInterrupts` call: a flag left over from an earlier call, or a
newly flagged edge/level on an enabled input. -/
def flagAfterScan (cfg : Nat → InterruptConfig) (prev cur flags0 : Nat → Bool)
    (i : Nat) : Bool :=
  flags0 i || ((cfg i).enabled && shouldProcess (cfg i) (prev i) (cur i))

/-- One consume pass of `processInputInterrupts` over the 16 inputs for a
given priority tier: inputs that are enabled, in this tier, and flagged are
dispatched in index order (each dispatch invokes
`processInputChange(i, currentInputs[i])`, i.e. the single-input schedule
path, synchronously and to completion). -/
def priorityPass (cfg : Nat → InterruptConfig) (prev cur flags0 : Nat → Bool)
    (p : Nat) : List Nat :=
  (List.range 16).filter
    (fun i => (cfg i).enabled && decide ((cfg i).priority = p) &&
      flagAfterScan cfg prev cur flags0 i)

/-- The `anyChange` flag of `processInputInterrupts`: set exactly when the
sampling phase newly flagged at least one enabled input this call. -/
def anyNewFlag (cfg : Nat → InterruptConfig) (prev cur : Nat → Bool) : Bool :=
  (List.range 16).any
    (fun i => (cfg i).enabled && shouldProcess (cfg i) (prev i) (cur i))

/-- `InterruptManager::processInputInterrupts`: sample all 16 inputs,
flag per trigger type, and — when at least one input was newly flagged —
consume the flags in three passes ordered HIGH, MEDIUM, LOW.  Returns the
dispatch list `(inputIndex, currentLevel)` in execution order and the
remaining flags (flags of dispatched inputs cleared; flags of inputs in no
consumed tier, e.g. priority NONE, stay set). -/
def processInputInterrupts (cfg : Nat → InterruptConfig)
    (prev cur flags0 : Nat → Bool) : List (Nat × Bool) × (Nat → Bool) :=
  if ¬anyNewFlag cfg prev cur then ([], flagAfterScan cfg prev cur flags0)
  else
    let dHigh := priorityPass cfg prev cur flags0 INPUT_PRIORITY_HIGH
    let dMed := priorityPass cfg prev cur flags0 INPUT_PRIORITY_MEDIUM
    let dLow := priorityPass cfg prev cur flags0 INPUT_PRIORITY_LOW
    let d := dHigh ++ dMed ++ dLow
    (d.map (fun i => (i, cur i)),
      fun i => if i ∈ d then false else flagAfterScan cfg prev cur flags0 i)

/-! ### Schedule persistence (`ScheduleManager::saveSchedules` /
`ScheduleManager::loadSchedules`, lines 54-169)

`saveSchedules` builds one JSON document holding all 30 slots, serializes
it with ArduinoJson (minified: no whitespace, keys in insertion order,
integral floats printed without a decimal point), writes at most 1536 bytes
of it to EEPROM starting at address 512, writes the terminating 0 byte at
offset `n` (the full document length), and commits.  `loadSchedules` reads
from address 512 up to the first 0 byte (at most 8191 bytes) and parses.
-/

/-- ArduinoJson rendering of a boolean. -/
def jsonBool : Bool → String
  | true => "true"
  | false => "false"

/-- Rendering of the `float sensorThreshold` field.  ArduinoJson prints a
float with integral value as a bare integer; only integral thresholds are
used in the statements below (the fallback renders the raw rational and
never occurs there). -/
def jsonThreshold (q : ℚ) : String :=
  if q.den = 1 then toString q.num else toString q

/-- The serialized JSON object of one schedule slot, fields in the order
`saveSchedules` inserts them (lines 61-78). -/
def scheduleToJson (s : TimeSchedule) : String :=
  "\x7b\"enabled\":" ++ jsonBool s.enabled ++
    ",\"name\":\"" ++ s.name ++
    "\",\"triggerType\":" ++ toString s.triggerType ++
    ",\"days\":" ++ toString s.days ++
    ",\"hour\":" ++ toString s.hour ++
    ",\"minute\":" ++ toString s.minute ++
    ",\"inputMask\":" ++ toString s.inputMask ++
    ",\"inputStates\":" ++ toString s.inputStates ++
    ",\"logic\":" ++ toString s.logic ++
    ",\"action\":" ++ toString s.action ++
    ",\"targetType\":" ++ toString s.targetType ++
    ",\"targetId\":" ++ toString s.targetId ++
    ",\"targetIdLow\":" ++ toString s.targetIdLow ++
    ",\"sensorIndex\":" ++ toString s.sensorIndex ++
    ",\"sensorTriggerType\":" ++ toString s.sensorTriggerType ++
    ",\"sensorCondition\":" ++ toString s.sensorCondition ++
    ",\"sensorThreshold\":" ++ jsonThreshold s.sensorThreshold ++ "\x7d"

/-- Comma-join of the serialized array elements. -/
def joinComma : List String → String
  | [] => ""
  | [s] => s
  | s :: t :: rest => s ++ "," ++ joinComma (t :: rest)

/-- The full serialized document `{"schedules":[...]}` of `saveSchedules`. -/
def serializeSchedules (arr : List TimeSchedule) : String :=
  "\x7b\"schedules\":[" ++ joinComma (arr.map scheduleToJson) ++ "]\x7d"

/-- The EEPROM write loop bound of `saveSchedules` (line 88):
`for (i = 0; i < n && i < 1536; i++)` — at most 1536 document bytes are
stored in the schedule area. -/
def scheduleBytesWritten (arr : List TimeSchedule) : Nat :=
  min (serializeSchedules arr).length 1536

/-- The offset (from the schedule area base 512) at which `saveSchedules`
writes the terminating 0 byte (line 93): the full document length `n`,
regardless of how many bytes the capped loop actually stored. -/
def scheduleTerminatorOffset (arr : List TimeSchedule) : Nat :=
  (serializeSchedules arr).length

/-- `existsMaskedHigh mask cur`: some loop position (0..18) is masked and
its current input state is high — the condition under which the full scan's
`highMatchingInputs` accumulator is nonzero once the loop has visited every
masked bit. -/
def existsMaskedHigh (mask cur : Nat) : Prop :=
  ∃ b < 19, mask.testBit b = true ∧ cur.testBit b = true

instance (mask cur : Nat) : Decidable (existsMaskedHigh mask cur) := by
  unfold existsMaskedHigh
  infer_instance

/-- `existsMaskedLow mask cur`: some loop position (0..18) is masked and
its current input state is low. -/
def existsMaskedLow (mask cur : Nat) : Prop :=
  ∃ b < 19, mask.testBit b = true ∧ cur.testBit b = false

instance (mask cur : Nat) : Decidable (existsMaskedLow mask cur) := by
  unfold existsMaskedLow
  infer_instance

/-! ### Concrete inputs used by the counterexamples and witnesses -/

/-- A fully populated slot: every field at its maximal in-range value.
An array of 30 such slots is the "every slot enabled and fully populated"
state of claim C1. -/
def schedC1Full : TimeSchedule :=
  { enabled := true, triggerType := 2, days := 127, hour := 23, minute := 59,
    inputMask := 65535, inputStates := 65535, logic := 1, action := 2,
    targetType := 1, targetId := 65535, targetIdLow := 65535,
    name := "Schedule 1", sensorIndex := 2, sensorTriggerType := 1,
    sensorCondition := 2, sensorThreshold := 25 }

/-- An enabled pure-Time schedule for 6:30 on every weekday. -/
def timeSchedC2 : TimeSchedule :=
  { enabled := true, triggerType := 0, days := 127, hour := 6, minute := 30,
    inputMask := 0, inputStates := 0, logic := 0, action := 1,
    targetType := 0, targetId := 5, targetIdLow := 0, name := "Morning",
    sensorIndex := 0, sensorTriggerType := 0, sensorCondition := 0,
    sensorThreshold := 25 }

/-- A snapshot at Monday 6:30:`s` with all inputs low. -/
def snapC2 (s : Nat) : Snapshot :=
  { inputState := fun _ => false, directInputState := fun _ => false,
    now := { dayOfWeek := 1, hour := 6, minute := 30, second := s },
    sensorType := fun _ => 0, temperature := fun _ => 25, humidity := fun _ => 50 }

/-- A snapshot with every input low and every sensor digital (the time
fields are irrelevant to the input-only evaluations it is used in). -/
def snapAllLow : Snapshot :=
  { inputState := fun _ => false, directInputState := fun _ => false,
    now := { dayOfWeek := 0, hour := 0, minute := 0, second := 0 },
    sensorType := fun _ => 0, temperature := fun _ => 25, humidity := fun _ => 50 }

/-- AND-logic Input schedule over inputs {0, 1} requiring input0 high and
input1 low. -/
def schedC3 : TimeSchedule :=
  { enabled := true, triggerType := 1, days := 0, hour := 0, minute := 0,
    inputMask := 3, inputStates := 1, logic := 0, action := 1,
    targetType := 0, targetId := 5, targetIdLow := 7, name := "C3",
    sensorIndex := 0, sensorTriggerType := 0, sensorCondition := 0,
    sensorThreshold := 25 }

/-- OR-logic Input schedule over inputs {0, 1} with dual targets 5 and 7. -/
def schedC4 : TimeSchedule :=
  { enabled := true, triggerType := 1, days := 0, hour := 0, minute := 0,
    inputMask := 3, inputStates := 1, logic := 1, action := 1,
    targetType := 0, targetId := 5, targetIdLow := 7, name := "C4",
    sensorIndex := 0, sensorTriggerType := 0, sensorCondition := 0,
    sensorThreshold := 25 }

/-- Interrupt configuration: input 0 LOW priority, input 1 HIGH priority,
input 2 priority NONE (all enabled, change-triggered); the rest disabled. -/
def cfgC5 : Nat → InterruptConfig := fun i =>
  if i = 0 then
    { enabled := true, priority := 3, inputIndex := 0, triggerType := 2, name := "In1" }
  else if i = 1 then
    { enabled := true, priority := 1, inputIndex := 1, triggerType := 2, name := "In2" }
  else if i = 2 then
    { enabled := true, priority := 0, inputIndex := 2, triggerType := 2, name := "In3" }
  else
    { enabled := false, priority := 2, inputIndex := i, triggerType := 2, name := "In" }

/-- Bitmask schedule turning outputs 0 and 1 on. -/
def schedC6 : TimeSchedule :=
  { enabled := true, triggerType := 0, days := 0, hour := 0, minute := 0,
    inputMask := 0, inputStates := 0, logic := 0, action := 1,
    targetType := 1, targetId := 3, targetIdLow := 0, name := "C6",
    sensorIndex := 0, sensorTriggerType := 0, sensorCondition := 0,
    sensorThreshold := 25 }

/-- Single-target ON schedule whose stored target id is 256. -/
def schedC7 : TimeSchedule :=
  { enabled := true, triggerType := 0, days := 0, hour := 0, minute := 0,
    inputMask := 0, inputStates := 0, logic := 0, action := 1,
    targetType := 0, targetId := 256, targetIdLow := 0, name := "C7",
    sensorIndex := 0, sensorTriggerType := 0, sensorCondition := 0,
    sensorThreshold := 25 }

/-- Humidity-triggered Sensor schedule on sensor 0. -/
def schedC8 : TimeSchedule :=
  { enabled := true, triggerType := 3, days := 0, hour := 0, minute := 0,
    inputMask := 0, inputStates := 0, logic := 0, action := 1,
    targetType := 0, targetId := 5, targetIdLow := 7, name := "C8",
    sensorIndex := 0, sensorTriggerType := 1, sensorCondition := 0,
    sensorThreshold := 50 }

/-- A snapshot whose sensors are all configured as DS18B20 (type 3) with a
humidity reading far above `schedC8`'s threshold. -/
def snapC8 : Snapshot :=
  { inputState := fun _ => false, directInputState := fun _ => false,
    now := { dayOfWeek := 0, hour := 0, minute := 0, second := 0 },
    sensorType := fun _ => 3, temperature := fun _ => 25, humidity := fun _ => 80 }

/-- Enabled Above-2048 analog trigger on analog input 0, single target 3. -/
def trigC9 : AnalogTrigger :=
  { enabled := true, analogInput := 0, threshold := 2048, condition := 0,
    action := 1, targetType := 0, targetId := 3, name := "T1" }

/-- Combined schedule matching Monday 6:30 with input 0 required high. -/
def schedC10a : TimeSchedule :=
  { enabled := true, triggerType := 2, days := 127, hour := 6, minute := 30,
    inputMask := 1, inputStates := 1, logic := 0, action := 1,
    targetType := 0, targetId := 9, targetIdLow := 0, name := "C10a",
    sensorIndex := 0, sensorTriggerType := 0, sensorCondition := 0,
    sensorThreshold := 25 }

/-- Input schedule requiring input 0 high, target 7. -/
def schedC10b : TimeSchedule :=
  { enabled := true, triggerType := 1, days := 0, hour := 0, minute := 0,
    inputMask := 1, inputStates := 1, logic := 0, action := 1,
    targetType := 0, targetId := 7, targetIdLow := 0, name := "C10b",
    sensorIndex := 0, sensorTriggerType := 0, sensorCondition := 0,
    sensorThreshold := 25 }

/-- Snapshot at Monday 6:30:00 with input 0 high and the rest low. -/
def snapC10 : Snapshot :=
  { inputState := fun i => i == 0, directInputState := fun _ => false,
    now := { dayOfWeek := 1, hour := 6, minute := 30, second := 0 },
    sensorType := fun _ => 0, temperature := fun _ => 25, humidity := fun _ => 50 }

/-! ### Helper lemmas -/

lemma testBit_one_shl (b k : Nat) : (1 <<< b).testBit k = decide (b = k) := by
  have h : (1 : Nat) <<< b = 2 ^ b := by simp [Nat.shiftLeft_eq]
  rw [h, Nat.testBit_two_pow]

lemma ne_zero_iff_exists_testBit (n : Nat) : n ≠ 0 ↔ ∃ i, n.testBit i = true := by
  constructor
  · exact Nat.ne_zero_implies_bit_true
  · rintro ⟨i, hi⟩ h0
    subst h0
    simp [Nat.zero_testBit] at hi

lemma andLoop_cons_skip {mask states cur b : Nat} {rest : List Nat} {h l : Nat}
    (hm : mask.testBit b = false) :
    andLoop mask states cur (b :: rest) h l = andLoop mask states cur rest h l := by
  simp only [andLoop]
  rw [if_neg (by simp [hm])]

lemma andLoop_cons_mismatch {mask states cur b : Nat} {rest : List Nat} {h l : Nat}
    (hm : mask.testBit b = true) (hne : cur.testBit b ≠ states.testBit b) :
    andLoop mask states cur (b :: rest) h l = (false, h, l) := by
  simp only [andLoop]
  rw [if_pos hm, if_pos hne]

lemma andLoop_cons_high {mask states cur b : Nat} {rest : List Nat} {h l : Nat}
    (hm : mask.testBit b = true) (he : cur.testBit b = states.testBit b)
    (hc : cur.testBit b = true) :
    andLoop mask states cur (b :: rest) h l
      = andLoop mask states cur rest (h ||| (1 <<< b)) l := by
  simp only [andLoop]
  rw [if_pos hm, if_neg (by simp [he]), if_pos hc]

lemma andLoop_cons_low {mask states cur b : Nat} {rest : List Nat} {h l : Nat}
    (hm : mask.testBit b = true) (he : cur.testBit b = states.testBit b)
    (hc : cur.testBit b = false) :
    andLoop mask states cur (b :: rest) h l
      = andLoop mask states cur rest h (l ||| (1 <<< b)) := by
  simp only [andLoop]
  rw [if_pos hm, if_neg (by simp [he]), if_neg (by simp [hc])]

lemma andLoop_met_iff (mask states cur : Nat) :
    ∀ (bs : List Nat) (h l : Nat),
      (andLoop mask states cur bs h l).1 = true ↔
        ∀ b ∈ bs, mask.testBit b → cur.testBit b = states.testBit b := by
  intro bs
  induction bs with
  | nil => intro h l; simp [andLoop]
  | cons b rest ih =>
    intro h l
    by_cases hm : mask.testBit b
    · by_cases he : cur.testBit b = states.testBit b
      · by_cases hc : cur.testBit b
        · rw [andLoop_cons_high hm he (by simpa using hc)]
          simp only [ih, List.mem_cons]
          constructor
          · intro hall c hcmem hcm
            rcases hcmem with hcb | hcr
            · subst hcb; exact he
            · exact hall c hcr hcm
          · intro hall c hcr hcm
            exact hall c (Or.inr hcr) hcm
        · rw [andLoop_cons_low hm he (by simpa using hc)]
          simp only [ih, List.mem_cons]
          constructor
          · intro hall c hcmem hcm
            rcases hcmem with hcb | hcr
            · subst hcb; exact he
            · exact hall c hcr hcm
          · intro hall c hcr hcm
            exact hall c (Or.inr hcr) hcm
      · rw [andLoop_cons_mismatch hm he]
        simp only [List.mem_cons]
        constructor
        · intro hfalse; simp at hfalse
        · intro hall; exact absurd (hall b (Or.inl rfl) hm) he
    · rw [andLoop_cons_skip (by simpa using hm)]
      simp only [ih, List.mem_cons]
      constructor
      · intro hall c hcmem hcm
        rcases hcmem with hcb | hcr
        · subst hcb; exact absurd hcm hm
        · exact hall c hcr hcm
      · intro hall c hcr hcm
        exact hall c (Or.inr hcr) hcm

lemma andLoop_acc_of_met (mask states cur : Nat) :
    ∀ (bs : List Nat) (h l : Nat),
      (andLoop mask states cur bs h l).1 = true →
      ∀ k,
        ((andLoop mask states cur bs h l).2.1.testBit k
          = (h.testBit k || (decide (k ∈ bs) && mask.testBit k && cur.testBit k))) ∧
        ((andLoop mask states cur bs h l).2.2.testBit k
          = (l.testBit k || (decide (k ∈ bs) && mask.testBit k && !cur.testBit k))) := by
  intro bs
  induction bs with
  | nil =>
    intro h l _ k
    simp [andLoop]
  | cons b rest ih =>
    intro h l hmet k
    by_cases hm : mask.testBit b
    · by_cases he : cur.testBit b = states.testBit b
      · by_cases hc : cur.testBit b
        · rw [andLoop_cons_high hm he (by simpa using hc)] at hmet ⊢
          obtain ⟨ih1, ih2⟩ := ih _ _ hmet k
          rw [ih1, ih2, Nat.testBit_or, testBit_one_shl]
          constructor
          · by_cases hk : k = b
            · subst hk; simp [hc, hm]
            · simp [hk, Ne.symm hk]
          · by_cases hk : k = b
            · subst hk; simp [hc, hm]
            · simp [hk]
        · rw [andLoop_cons_low hm he (by simpa using hc)] at hmet ⊢
          obtain ⟨ih1, ih2⟩ := ih _ _ hmet k
          rw [ih1, ih2, Nat.testBit_or, testBit_one_shl]
          constructor
          · by_cases hk : k = b
            · subst hk; simp [hc, hm]
            · simp [hk]
          · by_cases hk : k = b
            · subst hk; simp [hc, hm]
            · simp [hk, Ne.symm hk]
      · rw [andLoop_cons_mismatch hm he] at hmet
        simp at hmet
    · rw [andLoop_cons_skip (by simpa using hm)] at hmet ⊢
      obtain ⟨ih1, ih2⟩ := ih _ _ hmet k
      rw [ih1, ih2]
      constructor
      · by_cases hk : k = b
        · subst hk; simp [hm]
        · simp [hk]
      · by_cases hk : k = b
        · subst hk; simp [hm]
        · simp [hk]

lemma orLoop_cons_skip {mask states cur b : Nat} {rest : List Nat}
    {met : Bool} {h l : Nat} (hm : mask.testBit b = false) :
    orLoop mask states cur (b :: rest) met h l
      = orLoop mask states cur rest met h l := by
  simp only [orLoop]
  rw [if_neg (by simp [hm])]

lemma orLoop_cons_hit {mask states cur b : Nat} {rest : List Nat}
    {met : Bool} {h l : Nat} (hm : mask.testBit b = true) :
    orLoop mask states cur (b :: rest) met h l
      = orLoop mask states cur rest (met || (cur.testBit b == states.testBit b))
          (if cur.testBit b then h ||| (1 <<< b) else h)
          (if cur.testBit b then l else l ||| (1 <<< b)) := by
  simp only [orLoop]
  rw [if_pos hm]

lemma orLoop_met_iff (mask states cur : Nat) :
    ∀ (bs : List Nat) (met : Bool) (h l : Nat),
      (orLoop mask states cur bs met h l).1 = true ↔
        (met = true ∨ ∃ b ∈ bs, mask.testBit b ∧ cur.testBit b = states.testBit b) := by
  intro bs
  induction bs with
  | nil => intro met h l; simp [orLoop]
  | cons b rest ih =>
    intro met h l
    by_cases hm : mask.testBit b
    · rw [orLoop_cons_hit (by simpa using hm)]
      rw [ih]
      simp only [List.mem_cons, Bool.or_eq_true, beq_iff_eq]
      constructor
      · rintro (⟨hmet | heq⟩ | ⟨c, hcr, hcm, hceq⟩)
        · exact Or.inl hmet
        · exact Or.inr ⟨b, Or.inl rfl, by simpa using hm, heq⟩
        · exact Or.inr ⟨c, Or.inr hcr, hcm, hceq⟩
      · rintro (hmet | ⟨c, hcmem, hcm, hceq⟩)
        · exact Or.inl (Or.inl hmet)
        · rcases hcmem with hcb | hcr
          · subst hcb; exact Or.inl (Or.inr hceq)
          · exact Or.inr ⟨c, hcr, hcm, hceq⟩
    · rw [orLoop_cons_skip (by simpa using hm)]
      rw [ih]
      simp only [List.mem_cons]
      constructor
      · rintro (hmet | ⟨c, hcr, hcm, hceq⟩)
        · exact Or.inl hmet
        · exact Or.inr ⟨c, Or.inr hcr, hcm, hceq⟩
      · rintro (hmet | ⟨c, hcmem, hcm, hceq⟩)
        · exact Or.inl hmet
        · rcases hcmem with hcb | hcr
          · subst hcb; exact absurd hcm hm
          · exact Or.inr ⟨c, hcr, hcm, hceq⟩

lemma orLoop_acc (mask states cur : Nat) :
    ∀ (bs : List Nat) (met : Bool) (h l : Nat) (k : Nat),
      ((orLoop mask states cur bs met h l).2.1.testBit k
        = (h.testBit k || (decide (k ∈ bs) && mask.testBit k && cur.testBit k))) ∧
      ((orLoop mask states cur bs met h l).2.2.testBit k
        = (l.testBit k || (decide (k ∈ bs) && mask.testBit k && !cur.testBit k))) := by
  intro bs
  induction bs with
  | nil => intro met h l k; simp [orLoop]
  | cons b rest ih =>
    intro met h l k
    by_cases hm : mask.testBit b
    · rw [orLoop_cons_hit (by simpa using hm)]
      by_cases hc : cur.testBit b
      · rw [if_pos hc, if_pos hc]
        obtain ⟨ih1, ih2⟩ := ih (met || (cur.testBit b == states.testBit b))
          (h ||| (1 <<< b)) l k
        rw [ih1, ih2, Nat.testBit_or, testBit_one_shl]
        constructor
        · by_cases hk : k = b
          · subst hk; simp [hc, hm]
          · simp [hk, Ne.symm hk]
        · by_cases hk : k = b
          · subst hk; simp [hc, hm]
          · simp [hk]
      · rw [if_neg hc, if_neg hc]
        obtain ⟨ih1, ih2⟩ := ih (met || (cur.testBit b == states.testBit b))
          h (l ||| (1 <<< b)) k
        rw [ih1, ih2, Nat.testBit_or, testBit_one_shl]
        constructor
        · by_cases hk : k = b
          · subst hk; simp [hc, hm]
          · simp [hk]
        · by_cases hk : k = b
          · subst hk; simp [hc, hm]
          · simp [hk, Ne.symm hk]
    · rw [orLoop_cons_skip (by simpa using hm)]
      obtain ⟨ih1, ih2⟩ := ih met h l k
      rw [ih1, ih2]
      constructor
      · by_cases hk : k = b
        · subst hk; simp [hm]
        · simp [hk]
      · by_cases hk : k = b
        · subst hk; simp [hm]
        · simp [hk]

lemma evalInputCondition_acc_of_met (sched : TimeSchedule) (cur : Nat)
    (hmet : (evalInputCondition sched cur).1 = true) :
    ∀ k,
      ((evalInputCondition sched cur).2.1.testBit k
        = (decide (k < 19) && sched.inputMask.testBit k && cur.testBit k)) ∧
      ((evalInputCondition sched cur).2.2.testBit k
        = (decide (k < 19) && sched.inputMask.testBit k && !cur.testBit k)) := by
  intro k
  unfold evalInputCondition at hmet ⊢
  by_cases hlog : sched.logic = 0
  · rw [if_pos hlog] at hmet ⊢
    obtain ⟨h1, h2⟩ := andLoop_acc_of_met sched.inputMask sched.inputStates cur
      (List.range 19) 0 0 hmet k
    rw [h1, h2]
    constructor <;> simp [List.mem_range]
  · rw [if_neg hlog]
    obtain ⟨h1, h2⟩ := orLoop_acc sched.inputMask sched.inputStates cur
      (List.range 19) false 0 0 k
    rw [h1, h2]
    constructor <;> simp [List.mem_range]

lemma joinComma_replicate_length (s : String) (n : Nat) :
    (joinComma (List.replicate (n + 1) s)).length = (n + 1) * s.length + n := by
  induction n with
  | zero => simp [joinComma]
  | succ k ih =>
    show (joinComma (s :: s :: List.replicate k s)).length = _
    have h1 : joinComma (s :: s :: List.replicate k s)
        = s ++ "," ++ joinComma (s :: List.replicate k s) := rfl
    rw [h1, String.length_append, String.length_append]
    have h2 : (s :: List.replicate k s) = List.replicate (k + 1) s := rfl
    rw [h2, ih]
    have h3 : (",").length = 1 := rfl
    rw [h3]
    ring_nf

lemma mem_priorityPass_iff (cfg : Nat → InterruptConfig) (prev cur flags0 : Nat → Bool)
    (p i : Nat) :
    i ∈ priorityPass cfg prev cur flags0 p ↔
      i < 16 ∧ (cfg i).enabled = true ∧ (cfg i).priority = p ∧
        flagAfterScan cfg prev cur flags0 i = true := by
  unfold priorityPass
  simp [List.mem_filter, List.mem_range, and_assoc]

lemma priorityPass_nodup (cfg : Nat → InterruptConfig) (prev cur flags0 : Nat → Bool)
    (p : Nat) : (priorityPass cfg prev cur flags0 p).Nodup :=
  (List.nodup_range 16).filter _

lemma stageBitmask_fold_no_commit (action targetId : Nat) :
    ∀ (l : List Nat) (acc : Outputs × List ExecEvent),
      (∀ e ∈ acc.2, e ≠ ExecEvent.commit) →
      ∀ e ∈ (l.foldl (stageBitmaskStep action targetId) acc).2, e ≠ ExecEvent.commit := by
  intro l
  induction l with
  | nil => intro acc hacc; simpa using hacc
  | cons j rest ih =>
    intro acc hacc
    refine ih (stageBitmaskStep action targetId acc j) ?_
    intro e he
    unfold stageBitmaskStep at he
    split_ifs at he <;>
      first
        | exact hacc e he
        | (rcases List.mem_append.mp he with h | h
           · exact hacc e h
           · simp at h; subst h; simp)

lemma stageAction_no_commit (sched : TimeSchedule) (targetId : Nat) (outputs : Outputs) :
    ∀ e ∈ (stageAction sched targetId outputs).2, e ≠ ExecEvent.commit := by
  intro e he
  unfold stageAction at he
  split_ifs at he with h0 h1
  · unfold stageSingle at he
    split_ifs at he <;> simp at he <;> subst he <;> simp
  · exact stageBitmask_fold_no_commit sched.action targetId (List.range 16)
      (outputs, []) (by simp) e he
  · simp at he

lemma analog_foldl_no_fullScan (analog : Nat → Int) :
    ∀ (l : List AnalogTrigger) (acc : Outputs × List SMCall),
      SMCall.fullScan ∉ acc.2 →
      SMCall.fullScan ∉ (l.foldl (analogStep analog) acc).2 := by
  intro l
  induction l with
  | nil => intro acc hacc; simpa using hacc
  | cons trig rest ih =>
    intro acc hacc
    refine ih (analogStep analog acc trig) ?_
    unfold analogStep
    split_ifs <;> simp_all

lemma analog_foldl_mono (analog : Nat → Int) :
    ∀ (l : List AnalogTrigger) (acc : Outputs × List SMCall) (e : SMCall),
      e ∈ acc.2 → e ∈ (l.foldl (analogStep analog) acc).2 := by
  intro l
  induction l with
  | nil => intro acc e he; simpa using he
  | cons trig rest ih =>
    intro acc e he
    refine ih (analogStep analog acc trig) e ?_
    unfold analogStep
    split_ifs <;> simp_all

lemma analog_foldl_fired (analog : Nat → Int) :
    ∀ (l : List AnalogTrigger) (acc : Outputs × List SMCall) (trig : AnalogTrigger),
      trig ∈ l → trig.enabled = true → trig.analogInput < 4 →
      analogCondMet trig (analog trig.analogInput) = true →
      SMCall.writeOutputsCall ∈ (l.foldl (analogStep analog) acc).2 := by
  intro l
  induction l with
  | nil => intro acc trig h; simp at h
  | cons hd rest ih =>
    intro acc trig hmem hen hin hcond
    rcases List.mem_cons.mp hmem with heq | hrest
    · subst heq
      refine analog_foldl_mono analog rest (analogStep analog acc trig) _ ?_
      unfold analogStep
      rw [if_pos hen, if_pos hin, if_pos hcond]
      simp
    · exact ih (analogStep analog acc hd) trig hrest hen hin hcond

/-! ### Claim theorems -/

/-- C1: the save/load round-trip law fails on the code — for the 30-slot
array with every slot enabled and fully populated, `saveSchedules`
serializes an 8295-byte document, stores only the first 1536 bytes in the
schedule EEPROM area (write loop capped at 1536), and writes the
terminating 0 byte at offset 8295, past the stored data.  The stored record
is a strict prefix of the document, so `loadSchedules` cannot parse the
saved array back and the saved field values are not reproduced from
storage. -/
theorem c1_save_truncates_full_array :
    scheduleTerminatorOffset (List.replicate 30 schedC1Full) = 8295 ∧
    scheduleBytesWritten (List.replicate 30 schedC1Full) = 1536 ∧
    scheduleBytesWritten (List.replicate 30 schedC1Full)
      < scheduleTerminatorOffset (List.replicate 30 schedC1Full) := by
  have hlen : (scheduleToJson schedC1Full).length = 275 := by
    set_option maxRecDepth 4000 in rfl
  have hmap : (List.replicate 30 schedC1Full).map scheduleToJson
      = List.replicate 30 (scheduleToJson schedC1Full) := by
    simp [List.map_replicate]
  have hdoc : (serializeSchedules (List.replicate 30 schedC1Full)).length = 8295 := by
    unfold serializeSchedules
    rw [String.length_append, String.length_append, hmap]
    rw [joinComma_replicate_length (scheduleToJson schedC1Full) 29, hlen]
    rfl
  refine ⟨hdoc, ?_, ?_⟩
  · unfold scheduleBytesWritten
    rw [hdoc]
    decide
  · unfold scheduleBytesWritten scheduleTerminatorOffset
    rw [hdoc]
    decide

/-- C2 (counterexample): with a once-per-second pass over one qualifying
minute, an enabled Time schedule matching the current day/hour/minute
dispatches on each of the five passes with `second < 5` — five times, not
exactly once as the claim states. -/
theorem c2_counterexample :
    ((List.range 60).countP
      (fun s => decide ((0, 5) ∈ checkSchedulesDispatches [timeSchedC2] (snapC2 s)))) = 5 ∧
    ¬((List.range 60).countP
      (fun s => decide ((0, 5) ∈ checkSchedulesDispatches [timeSchedC2] (snapC2 s)))) = 1 := by
  constructor
  · decide
  · decide

/-- C2 (amended): an enabled Time schedule matching the current weekday,
hour and minute fires on a time-based pass exactly when the pass sees
`second < 5` — so it fires on every pass inside the 5-second window (up to
five dispatches per qualifying minute at the 1-second pass cadence), and
never outside it; at the boundary, a pass seeing second=4 fires and a pass
seeing second=5 does not. -/
theorem c2_time_window_fires_every_pass (sched : TimeSchedule) (t : RTime)
    (hen : sched.enabled = true)
    (hty : sched.triggerType = 0)
    (hday : sched.days &&& ((1 <<< t.dayOfWeek) % 256) ≠ 0)
    (hhour : t.hour = sched.hour)
    (hmin : t.minute = sched.minute) :
    (timePassFires sched t = decide (t.second < 5)) ∧
    (∀ snap : Snapshot, snap.now = t →
      checkSchedulesDispatches [sched] snap
        = if t.second < 5 then [(0, sched.targetId)] else []) := by
  have hfire : timePassFires sched t = decide (t.second < 5) := by
    unfold timePassFires
    simp [hen, hty, hday, hhour, hmin]
  refine ⟨hfire, ?_⟩
  intro snap hnow
  unfold checkSchedulesDispatches
  simp only [List.enum, List.enumFrom, List.flatMap_cons, List.flatMap_nil,
    List.append_nil]
  rw [hnow, hfire]
  by_cases hs : t.second < 5
  · rw [if_pos hs]
    simp [hty, hs]
  · rw [if_neg hs]
    simp [hs]

/-- C2 witness: the amended theorem applied at the boundary — for the
concrete schedule `timeSchedC2`, the pass at second 4 fires and the pass
at second 5 does not. -/
theorem c2_witness :
    timePassFires timeSchedC2 ⟨1, 6, 30, 4⟩ = true ∧
    timePassFires timeSchedC2 ⟨1, 6, 30, 5⟩ = false := by
  constructor
  · have h := (c2_time_window_fires_every_pass timeSchedC2 ⟨1, 6, 30, 4⟩
      (by decide) (by decide) (by decide) (by decide) (by decide)).1
    simpa using h
  · have h := (c2_time_window_fires_every_pass timeSchedC2 ⟨1, 6, 30, 5⟩
      (by decide) (by decide) (by decide) (by decide) (by decide)).1
    simpa using h

/-- C3: in the full-scan evaluation of an enabled Input/Combined schedule
with a nonzero input mask, AND logic is met iff every masked loop position
(0..18) has its current state equal to the desired `inputStates` bit, and
OR logic is met iff at least one masked position matches; under OR the loop
visits every masked bit, so the high accumulator holds exactly the masked
currently-high bits and the low accumulator exactly the masked
currently-low bits. -/
theorem c3_and_or_condition_semantics (sched : TimeSchedule) (cur : Nat)
    (hen : sched.enabled = true)
    (hty : sched.triggerType = 1 ∨ sched.triggerType = 2)
    (hmask : sched.inputMask ≠ 0) :
    (sched.logic = 0 →
      ((evalInputCondition sched cur).1 = true ↔
        ∀ b < 19, sched.inputMask.testBit b →
          cur.testBit b = sched.inputStates.testBit b)) ∧
    (sched.logic ≠ 0 →
      (((evalInputCondition sched cur).1 = true ↔
        ∃ b < 19, sched.inputMask.testBit b ∧
          cur.testBit b = sched.inputStates.testBit b) ∧
      (∀ k, (evalInputCondition sched cur).2.1.testBit k
          = (decide (k < 19) && sched.inputMask.testBit k && cur.testBit k)) ∧
      (∀ k, (evalInputCondition sched cur).2.2.testBit k
          = (decide (k < 19) && sched.inputMask.testBit k && !cur.testBit k)))) := by
  constructor
  · intro hlog
    unfold evalInputCondition
    rw [if_pos hlog, andLoop_met_iff]
    constructor
    · intro hall b hb hm
      exact hall b (List.mem_range.mpr hb) hm
    · intro hall b hb hm
      exact hall b (List.mem_range.mp hb) hm
  · intro hlog
    unfold evalInputCondition
    rw [if_neg hlog]
    refine ⟨?_, ?_, ?_⟩
    · rw [orLoop_met_iff]
      simp only [List.mem_range]
      constructor
      · rintro (hf | hex)
        · exact absurd hf (by simp)
        · exact hex
      · intro hex
        exact Or.inr hex
    · intro k
      have h := (orLoop_acc sched.inputMask sched.inputStates cur
        (List.range 19) false 0 0 k).1
      rw [h]
      simp [List.mem_range]
    · intro k
      have h := (orLoop_acc sched.inputMask sched.inputStates cur
        (List.range 19) false 0 0 k).2
      rw [h]
      simp [List.mem_range]

/-- C3 witness: the AND-logic schedule `schedC3` (mask {0,1}, desired
input0 high and input1 low) is met on the snapshot with input 0 high only. -/
theorem c3_witness : (evalInputCondition schedC3 1).1 = true :=
  ((c3_and_or_condition_semantics schedC3 1 rfl (Or.inl rfl) (by decide)).1
    rfl).mpr (by decide)

/-- C4: for an enabled Input/Combined schedule with nonzero mask whose time
gate and overall input condition hold, the full scan dispatches `targetId`
iff some masked input is currently high and `targetId > 0`, and dispatches
`targetIdLow` iff some masked input is currently low and `targetIdLow > 0`
(both may fire in one pass); with a single-bit mask and both targets
positive, exactly one of the two fires, selected by the input's current
state. -/
theorem c4_dual_target_dispatch (sched : TimeSchedule) (snap : Snapshot) (cur : Nat)
    (hen : sched.enabled = true)
    (hty : sched.triggerType = 1 ∨ sched.triggerType = 2)
    (hmask : sched.inputMask ≠ 0)
    (hgate : sched.triggerType = 2 → combinedTimeGate sched snap.now = true)
    (hmet : (evalInputCondition sched cur).1 = true) :
    (schedulePassTargets snap cur sched
      = (if existsMaskedHigh sched.inputMask cur ∧ sched.targetId > 0
          then [sched.targetId] else []) ++
        (if existsMaskedLow sched.inputMask cur ∧ sched.targetIdLow > 0
          then [sched.targetIdLow] else [])) ∧
    (∀ b < 19, sched.inputMask = 1 <<< b → sched.targetId > 0 →
      sched.targetIdLow > 0 →
      schedulePassTargets snap cur sched
        = if cur.testBit b then [sched.targetId] else [sched.targetIdLow]) := by
  have ht3 : ¬sched.triggerType = 3 := by rcases hty with h | h <;> omega
  have hpass : schedulePassTargets snap cur sched
      = dualDispatch sched (evalInputCondition sched cur).2.1
          (evalInputCondition sched cur).2.2 := by
    unfold schedulePassTargets
    rw [if_neg (by simp [hen])]
    rw [if_neg (by rcases hty with h | h <;> simp [h])]
    rw [if_neg (by rintro ⟨-, h0⟩; exact hmask h0)]
    rw [if_neg (by rintro ⟨h2, hng⟩; exact hng (hgate h2))]
    rw [if_neg ht3]
    simp only [hmet, if_pos]
  have hhigh : ((evalInputCondition sched cur).2.1 ≠ 0 ↔
      existsMaskedHigh sched.inputMask cur) := by
    unfold existsMaskedHigh
    rw [ne_zero_iff_exists_testBit]
    constructor
    · rintro ⟨i, hi⟩
      rw [(evalInputCondition_acc_of_met sched cur hmet i).1] at hi
      simp only [Bool.and_eq_true, decide_eq_true_eq] at hi
      exact ⟨i, hi.1.1, hi.1.2, hi.2⟩
    · rintro ⟨b, hb, hbm, hbc⟩
      refine ⟨b, ?_⟩
      rw [(evalInputCondition_acc_of_met sched cur hmet b).1]
      simp [hb, hbm, hbc]
  have hlow : ((evalInputCondition sched cur).2.2 ≠ 0 ↔
      existsMaskedLow sched.inputMask cur) := by
    unfold existsMaskedLow
    rw [ne_zero_iff_exists_testBit]
    constructor
    · rintro ⟨i, hi⟩
      rw [(evalInputCondition_acc_of_met sched cur hmet i).2] at hi
      simp only [Bool.and_eq_true, decide_eq_true_eq, Bool.not_eq_true'] at hi
      exact ⟨i, hi.1.1, hi.1.2, hi.2⟩
    · rintro ⟨b, hb, hbm, hbc⟩
      refine ⟨b, ?_⟩
      rw [(evalInputCondition_acc_of_met sched cur hmet b).2]
      simp [hb, hbm, hbc]
  constructor
  · rw [hpass]
    unfold dualDispatch
    rw [if_congr (and_congr hhigh Iff.rfl) rfl rfl,
      if_congr (and_congr hlow Iff.rfl) rfl rfl]
  · intro b hb hsingle hti htl
    rw [hpass]
    unfold dualDispatch
    by_cases hc : cur.testBit b
    · have hA : (evalInputCondition sched cur).2.1 ≠ 0 ∧ sched.targetId > 0 :=
        ⟨hhigh.mpr ⟨b, hb, by simp [hsingle, testBit_one_shl], hc⟩, hti⟩
      have hB : ¬((evalInputCondition sched cur).2.2 ≠ 0 ∧ sched.targetIdLow > 0) := by
        rintro ⟨hne, -⟩
        obtain ⟨c, hc19, hcm, hcc⟩ := hlow.mp hne
        rw [hsingle, testBit_one_shl] at hcm
        simp only [decide_eq_true_eq] at hcm
        subst hcm
        rw [hc] at hcc
        simp at hcc
      rw [if_pos hA, if_neg hB, if_pos hc]
      simp
    · have hA : ¬((evalInputCondition sched cur).2.1 ≠ 0 ∧ sched.targetId > 0) := by
        rintro ⟨hne, -⟩
        obtain ⟨c, hc19, hcm, hcc⟩ := hhigh.mp hne
        rw [hsingle, testBit_one_shl] at hcm
        simp only [decide_eq_true_eq] at hcm
        subst hcm
        exact hc hcc
      have hB : (evalInputCondition sched cur).2.2 ≠ 0 ∧ sched.targetIdLow > 0 :=
        ⟨hlow.mpr ⟨b, hb, by simp [hsingle, testBit_one_shl], by simpa using hc⟩, htl⟩
      rw [if_neg hA, if_pos hB, if_neg hc]
      simp

/-- C4 witness: the OR-logic schedule `schedC4` (mask {0,1}, mixed states,
targets 5 and 7) fires both targets in one full-scan pass when input 0 is
high and input 1 is low. -/
theorem c4_witness : schedulePassTargets snapAllLow 1 schedC4 = [5, 7] := by
  have h := (c4_dual_target_dispatch schedC4 snapAllLow 1 rfl (Or.inl rfl)
    (by decide) (fun h2 => absurd h2 (by decide)) (by decide)).1
  rw [if_pos (by decide), if_pos (by decide)] at h
  simpa using h

/-- C5: in one `processInputInterrupts` evaluation pass, no input is
dispatched more than once; the dispatch sequence is ordered by priority
tier (every HIGH dispatch precedes every MEDIUM dispatch, which precedes
every LOW dispatch — each dispatch runs its schedule evaluation and relay
actions synchronously to completion before the next); inputs with priority
NONE are never dispatched even when enabled and flagged; and when the pass
runs (some input newly flagged), every flagged enabled input in a consumed
tier is dispatched. -/
theorem c5_priority_dispatch_order (cfg : Nat → InterruptConfig)
    (prev cur flags0 : Nat → Bool) :
    ((processInputInterrupts cfg prev cur flags0).1.map Prod.fst).Nodup ∧
    ((processInputInterrupts cfg prev cur flags0).1.map Prod.fst).Pairwise
      (fun i j => (cfg i).priority ≤ (cfg j).priority) ∧
    (∀ i ∈ (processInputInterrupts cfg prev cur flags0).1.map Prod.fst,
      (cfg i).priority ≠ INPUT_PRIORITY_NONE) ∧
    (anyNewFlag cfg prev cur = true →
      ∀ i < 16, (cfg i).enabled = true →
        ((cfg i).priority = INPUT_PRIORITY_HIGH ∨
          (cfg i).priority = INPUT_PRIORITY_MEDIUM ∨
          (cfg i).priority = INPUT_PRIORITY_LOW) →
        flagAfterScan cfg prev cur flags0 i = true →
        i ∈ (processInputInterrupts cfg prev cur flags0).1.map Prod.fst) := by
  by_cases hany : anyNewFlag cfg prev cur
  · have hout : (processInputInterrupts cfg prev cur flags0).1.map Prod.fst
        = priorityPass cfg prev cur flags0 INPUT_PRIORITY_HIGH ++
          priorityPass cfg prev cur flags0 INPUT_PRIORITY_MEDIUM ++
          priorityPass cfg prev cur flags0 INPUT_PRIORITY_LOW := by
      unfold processInputInterrupts
      rw [if_neg (by simp [hany])]
      simp only [List.map_append, List.map_map]
      have hcomp : (Prod.fst ∘ fun i => (i, cur i)) = id := rfl
      simp [hcomp]
    rw [hout]
    have hmemP : ∀ (p i : Nat),
        i ∈ priorityPass cfg prev cur flags0 p → (cfg i).priority = p := by
      intro p i hi
      exact ((mem_priorityPass_iff cfg prev cur flags0 p i).mp hi).2.2.1
    refine ⟨?_, ?_, ?_, ?_⟩
    · refine ((priorityPass_nodup cfg prev cur flags0 _).append
        (priorityPass_nodup cfg prev cur flags0 _) ?_).append
        (priorityPass_nodup cfg prev cur flags0 _) ?_
      · intro a ha hb
        have h1 := hmemP _ _ ha
        have h2 := hmemP _ _ hb
        rw [h1] at h2
        simp [INPUT_PRIORITY_HIGH, INPUT_PRIORITY_MEDIUM] at h2
      · intro a ha hb
        have h2 := hmemP _ _ hb
        rcases List.mem_append.mp ha with h | h
        · have h1 := hmemP _ _ h
          rw [h1] at h2
          simp [INPUT_PRIORITY_HIGH, INPUT_PRIORITY_LOW] at h2
        · have h1 := hmemP _ _ h
          rw [h1] at h2
          simp [INPUT_PRIORITY_MEDIUM, INPUT_PRIORITY_LOW] at h2
    · rw [List.pairwise_append, List.pairwise_append]
      refine ⟨⟨?_, ?_, ?_⟩, ?_, ?_⟩
      · exact List.pairwise_of_forall_mem_list (fun a ha b hb => by
          rw [hmemP _ _ ha, hmemP _ _ hb])
      · exact List.pairwise_of_forall_mem_list (fun a ha b hb => by
          rw [hmemP _ _ ha, hmemP _ _ hb])
      · intro a ha b hb
        rw [hmemP _ _ ha, hmemP _ _ hb]
        simp [INPUT_PRIORITY_HIGH, INPUT_PRIORITY_MEDIUM]
      · exact List.pairwise_of_forall_mem_list (fun a ha b hb => by
          rw [hmemP _ _ ha, hmemP _ _ hb])
      · intro a ha b hb
        rw [hmemP _ _ hb]
        rcases List.mem_append.mp ha with h | h
        · rw [hmemP _ _ h]
          simp [INPUT_PRIORITY_HIGH, INPUT_PRIORITY_LOW]
        · rw [hmemP _ _ h]
          simp [INPUT_PRIORITY_MEDIUM, INPUT_PRIORITY_LOW]
    · intro i hi
      rcases List.mem_append.mp hi with h | h
      · rcases List.mem_append.mp h with h2 | h2
        · rw [hmemP _ _ h2]
          simp [INPUT_PRIORITY_HIGH, INPUT_PRIORITY_NONE]
        · rw [hmemP _ _ h2]
          simp [INPUT_PRIORITY_MEDIUM, INPUT_PRIORITY_NONE]
      · rw [hmemP _ _ h]
        simp [INPUT_PRIORITY_LOW, INPUT_PRIORITY_NONE]
    · intro _ i hi16 hien hip hiflag
      rcases hip with hp | hp | hp
      · exact List.mem_append.mpr (Or.inl (List.mem_append.mpr (Or.inl
          ((mem_priorityPass_iff cfg prev cur flags0 _ i).mpr
            ⟨hi16, hien, hp, hiflag⟩))))
      · exact List.mem_append.mpr (Or.inl (List.mem_append.mpr (Or.inr
          ((mem_priorityPass_iff cfg prev cur flags0 _ i).mpr
            ⟨hi16, hien, hp, hiflag⟩))))
      · exact List.mem_append.mpr (Or.inr
          ((mem_priorityPass_iff cfg prev cur flags0 _ i).mpr
            ⟨hi16, hien, hp, hiflag⟩))
  · have hout : (processInputInterrupts cfg prev cur flags0).1.map Prod.fst = [] := by
      unfold processInputInterrupts
      rw [if_pos (by simpa using hany)]
      simp
    rw [hout]
    refine ⟨List.nodup_nil, List.Pairwise.nil, by simp, ?_⟩
    intro hc
    exact absurd hc hany

/-- C5 witness: the theorem applied to the configuration `cfgC5` (input 0
LOW, input 1 HIGH, input 2 NONE, all rising to high in one sample). -/
theorem c5_witness :
    ((processInputInterrupts cfgC5 (fun _ => false) (fun i => decide (i < 3))
        (fun _ => false)).1.map Prod.fst).Nodup ∧
    ((processInputInterrupts cfgC5 (fun _ => false) (fun i => decide (i < 3))
        (fun _ => false)).1.map Prod.fst).Pairwise
      (fun i j => (cfgC5 i).priority ≤ (cfgC5 j).priority) :=
  ⟨(c5_priority_dispatch_order cfgC5 (fun _ => false) (fun i => decide (i < 3))
      (fun _ => false)).1,
    (c5_priority_dispatch_order cfgC5 (fun _ => false) (fun i => decide (i < 3))
      (fun _ => false)).2.1⟩

/-- C6 (counterexample): a failed commit does not leave the previous
physical relay state unchanged — with staged outputs 0 and 1 on, previous
physical state all-off, and the pin-1 write failing, `writeOutputs` returns
false yet relay 0's physical state has changed to on (a partial physical
update). -/
theorem c6_counterexample :
    ((executeScheduleAction [schedC6] 0 3 (fun _ => false) (fun _ => false)
        (fun b => b == 1)).2.2.1 = false) ∧
    ((executeScheduleAction [schedC6] 0 3 (fun _ => false) (fun _ => false)
        (fun b => b == 1)).2.1 0 = true) ∧
    ((fun _ => false : Outputs) 0 = false) := by
  refine ⟨by decide, by decide, rfl⟩

/-- C6 (amended): when a rule fires, `executeScheduleAction` stages every
relay mutation in the in-memory vector and then performs a single
`writeOutputs` commit (the trace is the staging events followed by exactly
one commit); on commit, each relay pin whose individual expander write
succeeds takes its staged value while each failing pin keeps its previous
physical state — so a failed commit can leave a partially updated physical
state, not the previous one — the call reports failure iff some pin write
failed, and the staged in-memory vector remains the new logical target
regardless. -/
theorem c6_staged_commit_semantics (schedules : List TimeSchedule) (i targetId : Nat)
    (outputs phys : Outputs) (fails : Nat → Bool) (sched : TimeSchedule)
    (hs : schedules[i]? = some sched) (hen : sched.enabled = true) :
    ((executeScheduleAction schedules i targetId outputs phys fails).1
      = (stageAction sched targetId outputs).1) ∧
    ((executeScheduleAction schedules i targetId outputs phys fails).2.2.2
      = (stageAction sched targetId outputs).2 ++ [ExecEvent.commit]) ∧
    (∀ e ∈ (stageAction sched targetId outputs).2, e ≠ ExecEvent.commit) ∧
    (∀ b, b < 16 →
      (executeScheduleAction schedules i targetId outputs phys fails).2.1 b
        = if fails b then phys b else (stageAction sched targetId outputs).1 b) ∧
    ((executeScheduleAction schedules i targetId outputs phys fails).2.2.1 = true ↔
      ∀ b, b < 16 → fails b = false) := by
  have hred : executeScheduleAction schedules i targetId outputs phys fails
      = ((stageAction sched targetId outputs).1,
          (writeOutputs (stageAction sched targetId outputs).1 phys fails).1,
          (writeOutputs (stageAction sched targetId outputs).1 phys fails).2,
          (stageAction sched targetId outputs).2 ++ [ExecEvent.commit]) := by
    unfold executeScheduleAction
    rw [hs]
    simp [hen]
  refine ⟨by rw [hred], by rw [hred], stageAction_no_commit sched targetId outputs,
    ?_, ?_⟩
  · intro b hb
    rw [hred]
    show (writeOutputs (stageAction sched targetId outputs).1 phys fails).1 b = _
    unfold writeOutputs
    simp only
    rw [if_pos hb]
  · rw [hred]
    show (writeOutputs (stageAction sched targetId outputs).1 phys fails).2 = true ↔ _
    unfold writeOutputs
    simp [List.all_eq_true, List.mem_range]

/-- C6 witness: the amended theorem applied to `schedC6` (bitmask targets 0
and 1) with the pin-1 write failing. -/
theorem c6_witness :
    ((executeScheduleAction [schedC6] 0 3 (fun _ => false) (fun _ => false)
        (fun b => b == 1)).1 = (stageAction schedC6 3 (fun _ => false)).1) ∧
    ((executeScheduleAction [schedC6] 0 3 (fun _ => false) (fun _ => false)
        (fun b => b == 1)).2.2.2
      = (stageAction schedC6 3 (fun _ => false)).2 ++ [ExecEvent.commit]) :=
  ⟨(c6_staged_commit_semantics [schedC6] 0 3 (fun _ => false) (fun _ => false)
      (fun b => b == 1) schedC6 rfl rfl).1,
    (c6_staged_commit_semantics [schedC6] 0 3 (fun _ => false) (fun _ => false)
      (fun b => b == 1) schedC6 rfl rfl).2.1⟩

/-- C7 (counterexample): the single-target bounds check truncates the
16-bit target id to 8 bits first — executing an enabled Single schedule
with targetId = 256 (which is ≥ 16) is not a no-op: it stages relay
256 % 256 = 0 to on. -/
theorem c7_counterexample :
    16 ≤ 256 ∧
    (executeScheduleAction [schedC7] 0 256 (fun _ => false) (fun _ => false)
      (fun _ => false)).1 0 = true := by
  exact ⟨by decide, by decide⟩

/-- C7 (amended): for a Single-target schedule, executing the action leaves
the staged output vector unchanged exactly when the 8-bit truncation of the
target id is out of range (`targetId % 256 ≥ 16`); target ids ≥ 16 whose
low byte is < 16 (such as 256) instead act on relay `targetId % 256`. -/
theorem c7_single_target_validation_mod256 (schedules : List TimeSchedule)
    (i targetId : Nat) (outputs phys : Outputs) (fails : Nat → Bool)
    (sched : TimeSchedule)
    (hs : schedules[i]? = some sched)
    (hty : sched.targetType = 0)
    (hid : 16 ≤ targetId % 256) :
    (executeScheduleAction schedules i targetId outputs phys fails).1 = outputs := by
  by_cases hen : sched.enabled
  · have hred : executeScheduleAction schedules i targetId outputs phys fails
        = ((stageAction sched targetId outputs).1,
            (writeOutputs (stageAction sched targetId outputs).1 phys fails).1,
            (writeOutputs (stageAction sched targetId outputs).1 phys fails).2,
            (stageAction sched targetId outputs).2 ++ [ExecEvent.commit]) := by
      unfold executeScheduleAction
      rw [hs]
      simp [hen]
    rw [hred]
    show (stageAction sched targetId outputs).1 = outputs
    unfold stageAction
    rw [if_pos hty]
    unfold stageSingle
    rw [if_neg (by omega)]
  · have hred : executeScheduleAction schedules i targetId outputs phys fails
        = (outputs, phys, true, []) := by
      unfold executeScheduleAction
      rw [hs]
      simp [hen]
    rw [hred]

/-- C7 witness: the amended theorem applied to `schedC7` at target id 300
(300 % 256 = 44 ≥ 16): the staged vector is unchanged. -/
theorem c7_witness :
    (executeScheduleAction [schedC7] 0 300 (fun _ => false) (fun _ => false)
      (fun _ => false)).1 = (fun _ => false : Outputs) :=
  c7_single_target_validation_mod256 [schedC7] 0 300 (fun _ => false)
    (fun _ => false) (fun _ => false) schedC7 rfl rfl (by decide)

/-- C8: in the full scan, an enabled Sensor schedule with
sensorTriggerType = Humidity whose sensor is configured as DS18B20 or any
other non-DHT type dispatches nothing — neither the temperature nor the
humidity comparison branch runs, the sensor condition stays false, and the
`conditionMet` guard blocks both the `targetId` and the `targetIdLow`
dispatch, for every possible sensor reading. -/
theorem c8_humidity_non_dht_skipped (sched : TimeSchedule) (snap : Snapshot) (cur : Nat)
    (hen : sched.enabled = true)
    (hty : sched.triggerType = 3)
    (hhum : sched.sensorTriggerType = 1)
    (hnondht : snap.sensorType sched.sensorIndex ≠ 1 ∧
      snap.sensorType sched.sensorIndex ≠ 2) :
    schedulePassTargets snap cur sched = [] := by
  unfold schedulePassTargets
  rw [if_neg (by simp [hen])]
  rw [if_neg (by simp [hty])]
  rw [if_neg (by rintro ⟨h12, -⟩; rcases h12 with h | h <;> omega)]
  rw [if_neg (by rintro ⟨h2, -⟩; omega)]
  rw [if_pos hty]
  by_cases hidx : 3 ≤ sched.sensorIndex
  · rw [if_pos hidx]
  · rw [if_neg hidx]
    by_cases hdig : snap.sensorType sched.sensorIndex = 0
    · rw [if_pos hdig]
    · rw [if_neg hdig]
      have hnot2 : ¬(sched.sensorTriggerType = 1 ∧
          (snap.sensorType sched.sensorIndex = 1 ∨
            snap.sensorType sched.sensorIndex = 2)) := by
        rintro ⟨-, h12⟩
        rcases h12 with h | h
        · exact hnondht.1 h
        · exact hnondht.2 h
      have hmet : sensorConditionMet sched snap = false := by
        unfold sensorConditionMet
        rw [if_neg (by omega), if_neg hnot2]
      simp [hmet]

/-- C8 witness: the theorem applied to the humidity schedule `schedC8` on a
snapshot whose sensor 0 is a DS18B20 (type 3) with humidity 80 far above
the threshold 50: no dispatch. -/
theorem c8_witness : schedulePassTargets snapC8 0 schedC8 = [] :=
  c8_humidity_non_dht_skipped schedC8 snapC8 0 rfl rfl rfl ⟨by decide, by decide⟩

/-- C9 (counterexample): an enabled analog trigger whose condition is met
(reading 3000 above threshold 2048) fires its own relay action and commits,
but the analog pass does not invoke the full-scan input-based pass — its
call trace is just the `writeOutputs` commit, with no full-scan call. -/
theorem c9_counterexample :
    analogCondMet trigC9 3000 = true ∧
    (checkAnalogTriggers [trigC9] (fun _ => 3000) (fun _ => false)).2
      = [SMCall.writeOutputsCall] ∧
    SMCall.fullScan ∉ (checkAnalogTriggers [trigC9] (fun _ => 3000)
      (fun _ => false)).2 := by
  refine ⟨by decide, by decide, by decide⟩

/-- C9 (amended): the analog-poll pass never invokes the full-scan
input-based pass; a met analog trigger's action is applied directly inside
`checkAnalogTriggers`, which calls `writeOutputs` for each fired trigger
(the full scan is reachable only from the combined-time path and from
on-demand external requests). -/
theorem c9_analog_no_full_scan (triggers : List AnalogTrigger) (analog : Nat → Int)
    (outputs : Outputs) :
    (SMCall.fullScan ∉ (checkAnalogTriggers triggers analog outputs).2) ∧
    (∀ trig ∈ triggers, trig.enabled = true → trig.analogInput < 4 →
      analogCondMet trig (analog trig.analogInput) = true →
      SMCall.writeOutputsCall ∈ (checkAnalogTriggers triggers analog outputs).2) := by
  constructor
  · exact analog_foldl_no_fullScan analog triggers (outputs, []) (by simp)
  · intro trig hmem hen hin hcond
    exact analog_foldl_fired analog triggers (outputs, []) trig hmem hen hin hcond

/-- C9 witness: the amended theorem applied to `trigC9` with reading 3000:
the fired trigger's commit appears in the analog pass trace. -/
theorem c9_witness :
    SMCall.writeOutputsCall
      ∈ (checkAnalogTriggers [trigC9] (fun _ => 3000) (fun _ => false)).2 :=
  (c9_analog_no_full_scan [trigC9] (fun _ => 3000) (fun _ => false)).2
    trigC9 (by decide) rfl (by decide) (by decide)

/-- C10: when the time-based pass finds an enabled Combined schedule whose
day/hour/minute match inside the 5-second window, it invokes the full scan
over all schedules, so every dispatch the full scan produces — including
those of every other enabled Input, Combined, or Sensor schedule whose
condition currently holds — is among the dispatches of that
`checkSchedules` pass. -/
theorem c10_combined_triggers_full_scan (schedules : List TimeSchedule)
    (snap : Snapshot) (k : Nat) (sched : TimeSchedule)
    (hk : schedules[k]? = some sched)
    (hty : sched.triggerType = 2)
    (hfire : timePassFires sched snap.now = true) :
    ∀ d ∈ fullScanDispatches schedules snap,
      d ∈ checkSchedulesDispatches schedules snap := by
  intro d hd
  unfold checkSchedulesDispatches
  refine List.mem_flatMap.mpr ⟨(k, sched), List.mem_enum_iff_getElem?.mpr hk, ?_⟩
  rw [if_pos hfire, if_neg (by simp [hty])]
  exact hd

/-- C10 witness: with the matching Combined schedule `schedC10a` at slot 0
and the Input schedule `schedC10b` at slot 1 whose condition holds, the
time pass at Monday 6:30:00 also dispatches schedule 1's action. -/
theorem c10_witness :
    (1, 7) ∈ checkSchedulesDispatches [schedC10a, schedC10b] snapC10 :=
  c10_combined_triggers_full_scan [schedC10a, schedC10b] snapC10 0 schedC10a
    rfl rfl (by decide) (1, 7) (by decide)

end KC868
